import Mathlib

/-!
Verification of the HWMonitor metrics sampler (src/HwMonitor_Rust/src/main.rs).

The sampler state (`HwMonitorApp`) holds the last computed CPU load and CPU
temperature.  On each sampling cycle the app refreshes the OS readings and
recomputes its fields; here the OS readings of one cycle are made explicit as a
`SysReadings` value, and the body of `HwMonitorApp::update` (minus the widget
drawing) is embedded as the pure functions `HwMonitorApp.update` and
`sample`.  Rational numbers stand in for the `f32` readings.
-/

/-- One temperature-labelled sensor component, as enumerated by the OS
(`sysinfo::Component`: a label and a temperature reading). -/
structure Component where
  label : String
  temperature : ℚ
  deriving DecidableEq

/-- The kind of a storage volume (`sysinfo::DiskKind`). -/
inductive DiskKind where
  | hdd : DiskKind
  | ssd : DiskKind
  | unknown : Int → DiskKind
  deriving DecidableEq

/-- One enumerated storage volume (`sysinfo::Disk`): the fields the program
reads, plus fields the OS reports but the program ignores. -/
structure DiskData where
  name : String
  mount_point : String
  kind : DiskKind
  total_space : Nat
  available_space : Nat
  deriving DecidableEq

/-- The OS sensor readings visible to one sampling cycle: the per-core CPU
usage percentages, the sensor component list and the disk list, each as the
corresponding `sysinfo` query returns it after the refresh calls. -/
structure SysReadings where
  cpus : List ℚ
  components : List Component
  disks : List DiskData
  deriving DecidableEq

/-- The disk fields surfaced to the presentation layer: name, mount point and
kind (the triple formatted at main.rs lines 62-66). -/
structure DiskInfo where
  name : String
  mount_point : String
  kind : DiskKind
  deriving DecidableEq

/-- Projection of an enumerated disk onto the surfaced triple. -/
def toDiskInfo (d : DiskData) : DiskInfo :=
  { name := d.name, mount_point := d.mount_point, kind := d.kind }

/-- The immutable snapshot of one sampling cycle (spec §3). -/
structure Snapshot where
  cpu_load_percent : Option ℚ
  cpu_temperature_celsius : Option ℚ
  disks : List DiskInfo
  deriving DecidableEq

/-- The sampler state: `struct HwMonitorApp` minus the opaque `System` handle
(the handle's readings enter through `SysReadings`). -/
structure HwMonitorApp where
  cpu_temp : Option ℚ
  cpu_load : Option ℚ
  deriving DecidableEq

/-- `HwMonitorApp::default`: both cached fields start out `None`
(main.rs lines 16-20). -/
def HwMonitorApp.default : HwMonitorApp :=
  { cpu_temp := none, cpu_load := none }

/-- Does `p` occur at the head of `l`?  Embeds the prefix test underlying
`str::contains`. -/
def listStartsWith : List Char → List Char → Bool
  | [], _ => true
  | _ :: _, [] => false
  | p :: ps, c :: cs => p == c && listStartsWith ps cs

/-- Does `p` occur as a contiguous substring of `l`?  Embeds `str::contains`
on the character sequences of the strings involved. -/
def containsSub (p : List Char) : List Char → Bool
  | [] => listStartsWith p []
  | c :: cs => listStartsWith p (c :: cs) || containsSub p cs

/-- ASCII lower-casing of a character sequence, embedding
`str::to_lowercase` for the sensor labels involved. -/
def lowerChars (l : List Char) : List Char :=
  l.map Char.toLower

/-- The pattern searched for in sensor labels. -/
def cpuPat : List Char :=
  [ 'c', 'p', 'u' ]

/-- The component filter of main.rs line 39:
`comp.label().to_lowercase().contains("cpu") && comp.temperature() > 0.0`. -/
def tempMatch (c : Component) : Bool :=
  containsSub cpuPat (lowerChars c.label.data) && decide (c.temperature > 0)

/-- The sampling part of `HwMonitorApp::update` (main.rs lines 31-40): the
CPU load is overwritten with the mean usage only when the CPU list is
non-empty, and the CPU temperature is overwritten with the reading of the
first matching component, or `none` when there is none. -/
def HwMonitorApp.update (s : HwMonitorApp) (r : SysReadings) : HwMonitorApp :=
  let cpus := r.cpus
  let load := if cpus.isEmpty then s.cpu_load else some (cpus.sum / (cpus.length : ℚ))
  let temp := (r.components.find? tempMatch).map Component.temperature
  { cpu_temp := temp, cpu_load := load }

/-- One full sampling cycle: the updated state together with the snapshot the
presentation layer reads from it (load, temperature, and the disk list of
main.rs lines 57-68 mapped in enumeration order). -/
def sample (s : HwMonitorApp) (r : SysReadings) : HwMonitorApp × Snapshot :=
  let s' := HwMonitorApp.update s r
  (s', { cpu_load_percent := s'.cpu_load,
         cpu_temperature_celsius := s'.cpu_temp,
         disks := r.disks.map toDiskInfo })

/-- The snapshot produced by one sampling cycle from state `s` and readings
`r`. -/
def snapshot (s : HwMonitorApp) (r : SysReadings) : Snapshot :=
  (sample s r).2

/-- Iterated sampling: the state after a sequence of cycles. -/
def runCycles (s : HwMonitorApp) (rs : List SysReadings) : HwMonitorApp :=
  rs.foldl HwMonitorApp.update s

/-- The presentation layer's substitution for a missing reading, embedding
`unwrap_or(0.0)` of main.rs lines 47-48. -/
def displayValue (o : Option ℚ) : ℚ :=
  o.getD 0

/-- Printable form of a disk kind (the `{:?}` rendering of `DiskKind`). -/
def kindLabel : DiskKind → String
  | DiskKind.hdd => "HDD"
  | DiskKind.ssd => "SSD"
  | DiskKind.unknown i => "Unknown(" ++ toString i ++ ")"

/-- The line rendered for one disk (main.rs lines 62-66). -/
def renderDiskLine (d : DiskInfo) : String :=
  "  " ++ d.name ++ ": " ++ d.mount_point ++ " (Type: " ++ kindLabel d.kind ++ ")"

/-- The disk section of the UI (main.rs lines 58-68): a placeholder line when
no disks were enumerated, otherwise one line per disk. -/
def renderDiskSection (ds : List DiskInfo) : List String :=
  if ds.isEmpty then [ "  No disks found." ] else ds.map renderDiskLine

/-! ### Concrete inputs used by witnesses and counterexamples -/

/-- The sensor scenario of spec §8: labels `CPU Package` and `GPU Core` with
temperatures `45.2` and `60.0`. -/
def readCase1 : SysReadings :=
  { cpus := []
    components := [ { label := "CPU Package", temperature := mkRat 452 10 },
                    { label := "GPU Core", temperature := mkRat 600 10 } ]
    disks := [] }

/-- The sensor scenario of spec §8: labels `cpu0` and `cpu1` with
temperatures `0.0` and `52.3`. -/
def readCase2 : SysReadings :=
  { cpus := []
    components := [ { label := "cpu0", temperature := 0 },
                    { label := "cpu1", temperature := mkRat 523 10 } ]
    disks := [] }

/-- A cycle on which every OS query came back empty. -/
def readEmpty : SysReadings :=
  { cpus := [], components := [], disks := [] }

/-- A cycle reporting two CPUs at 50% and 70%. -/
def readTwoCpus : SysReadings :=
  { cpus := [ (50 : ℚ), (70 : ℚ) ], components := [], disks := [] }

/-- A sampler state that has already cached a CPU load of 50%. -/
def appWithLoad : HwMonitorApp :=
  { cpu_temp := none, cpu_load := some (50 : ℚ) }

/-! ### General lemmas -/

/-- `List.find?` returns `none` exactly when nothing satisfies the test, and
otherwise the list splits around the first element that does. -/
theorem find?_eq_first {α : Type} (p : α → Bool) (l : List α) :
    (l.find? p = none ∧ ∀ a ∈ l, ¬ p a) ∨
    ∃ l₁ c l₂, l = l₁ ++ c :: l₂ ∧ (∀ a ∈ l₁, ¬ p a) ∧ p c ∧ l.find? p = some c := by
  induction l with
  | nil => exact Or.inl ⟨rfl, by simp⟩
  | cons a l ih =>
    cases hp : p a with
    | true =>
      refine Or.inr ⟨[], a, l, rfl, by simp, hp, ?_⟩
      simp [List.find?, hp]
    | false =>
      rcases ih with ⟨hn, hall⟩ | ⟨l₁, c, l₂, he, h₁, hc, hf⟩
      · refine Or.inl ⟨by simp [List.find?, hp, hn], ?_⟩
        intro x hx
        rcases List.mem_cons.mp hx with rfl | hx
        · simp [hp]
        · exact hall x hx
      · refine Or.inr ⟨a :: l₁, c, l₂, by rw [he]; rfl, ?_, hc, ?_⟩
        · intro x hx
          rcases List.mem_cons.mp hx with rfl | hx
          · simp [hp]
          · exact h₁ x hx
        · simp [List.find?, hp, hf]

/-! ### Claim theorems -/

/-- Claim C1: on every cycle whose CPU list is non-empty, the snapshot's
`cpu_load_percent` is `some` of the unweighted arithmetic mean of the
per-core usage percentages. -/
theorem cpu_load_is_mean (s : HwMonitorApp) (r : SysReadings) (h : r.cpus ≠ []) :
    (snapshot s r).cpu_load_percent = some (r.cpus.sum / (r.cpus.length : ℚ)) := by
  have he : r.cpus.isEmpty = false := by
    cases hc : r.cpus with
    | nil => exact absurd hc h
    | cons a t => rfl
  simp [snapshot, sample, HwMonitorApp.update, he]

/-- Witness for C1 at a concrete two-CPU reading. -/
theorem cpu_load_is_mean_witness :
    (snapshot HwMonitorApp.default readTwoCpus).cpu_load_percent =
      some (readTwoCpus.cpus.sum / (readTwoCpus.cpus.length : ℚ)) :=
  cpu_load_is_mean HwMonitorApp.default readTwoCpus (by decide)

/-- Claim C2: on every cycle, `cpu_temperature_celsius` comes from scanning
the components in enumeration order for the first one whose lower-cased label
contains `cpu` with a strictly positive temperature; with no match the field
is `none`, whatever the previous state held. -/
theorem cpu_temp_first_match (s : HwMonitorApp) (r : SysReadings) :
    ((snapshot s r).cpu_temperature_celsius = none ∧ ∀ c ∈ r.components, ¬ tempMatch c) ∨
    ∃ l₁ c l₂, r.components = l₁ ++ c :: l₂ ∧ (∀ a ∈ l₁, ¬ tempMatch a) ∧ tempMatch c ∧
      (snapshot s r).cpu_temperature_celsius = some c.temperature := by
  rcases find?_eq_first tempMatch r.components with ⟨hn, hall⟩ | ⟨l₁, c, l₂, he, h₁, hc, hf⟩
  · exact Or.inl ⟨by simp [snapshot, sample, HwMonitorApp.update, hn], hall⟩
  · exact Or.inr ⟨l₁, c, l₂, he, h₁, hc, by simp [snapshot, sample, HwMonitorApp.update, hf]⟩

/-- Claim C3: on every cycle whose CPU list is empty, `cpu_load_percent`
keeps the value it had after the preceding cycle. -/
theorem cpu_load_stale_carry (s : HwMonitorApp) (r : SysReadings) (h : r.cpus = []) :
    (snapshot s r).cpu_load_percent = s.cpu_load := by
  simp [snapshot, sample, HwMonitorApp.update, h]

/-- Witness for C3: a cached 50% load survives an empty-CPU cycle. -/
theorem cpu_load_stale_carry_witness :
    (snapshot appWithLoad readEmpty).cpu_load_percent = appWithLoad.cpu_load :=
  cpu_load_stale_carry appWithLoad readEmpty (by decide)

/-- Counterexample to claim C4 as stated: with a cached load of 50% and an
empty CPU list, the snapshot's `cpu_load_percent` is not `none`. -/
theorem cpu_load_empty_not_none :
    ¬ (snapshot appWithLoad readEmpty).cpu_load_percent = none := by
  decide

/-- Claim C4 amended: on a cycle with zero CPUs the field keeps its prior
value, so it is `none` exactly when no earlier cycle produced a value. -/
theorem cpu_load_empty_keeps_prior (s : HwMonitorApp) (r : SysReadings) (h : r.cpus = []) :
    (snapshot s r).cpu_load_percent = s.cpu_load ∧
    (s.cpu_load = none → (snapshot s r).cpu_load_percent = none) := by
  have hc : (snapshot s r).cpu_load_percent = s.cpu_load := by
    simp [snapshot, sample, HwMonitorApp.update, h]
  exact ⟨hc, fun hn => hc.trans hn⟩

/-- Witness for the amended C4: on a first-cycle empty read the field is
`none`. -/
theorem cpu_load_empty_keeps_prior_witness :
    (snapshot HwMonitorApp.default readEmpty).cpu_load_percent = none :=
  (cpu_load_empty_keeps_prior HwMonitorApp.default readEmpty rfl).2 rfl

/-- Claim C5: on the two concrete sensor scenarios of spec §8 the computed
temperature is `45.2` (first case-insensitive match) and `52.3` (first
strictly positive match, skipping the zero reading). -/
theorem cpu_temp_concrete_cases :
    (snapshot HwMonitorApp.default readCase1).cpu_temperature_celsius = some (45.2 : ℚ) ∧
    (snapshot HwMonitorApp.default readCase2).cpu_temperature_celsius = some (52.3 : ℚ) := by
  constructor
  · have h : (snapshot HwMonitorApp.default readCase1).cpu_temperature_celsius =
        some (mkRat 452 10) := rfl
    rw [h]
    norm_num [Rat.mkRat_eq_div]
  · have h : (snapshot HwMonitorApp.default readCase2).cpu_temperature_celsius =
        some (mkRat 523 10) := rfl
    rw [h]
    norm_num [Rat.mkRat_eq_div]

/-- Claim C6: the snapshot's disk sequence has exactly one surfaced entry per
enumerated disk, at the same index (no filtering or sorting), and on a cycle
with zero disks the sequence is empty and the disk section renders the
no-disks indicator line. -/
theorem disks_in_enumeration_order (s : HwMonitorApp) (r : SysReadings) :
    (snapshot s r).disks.length = r.disks.length ∧
    (∀ i : Nat, (snapshot s r).disks[i]? = (r.disks[i]?).map toDiskInfo) ∧
    (r.disks = [] → (snapshot s r).disks = [] ∧
      renderDiskSection (snapshot s r).disks = [ "  No disks found." ]) := by
  refine ⟨by simp [snapshot, sample], fun i => by simp [snapshot, sample], fun h => ?_⟩
  constructor
  · simp [snapshot, sample, h]
  · simp [snapshot, sample, h, renderDiskSection]

/-- Witness for C6 at the empty disk list. -/
theorem disks_in_enumeration_order_witness :
    renderDiskSection (snapshot HwMonitorApp.default readEmpty).disks =
      [ "  No disks found." ] :=
  ((disks_in_enumeration_order HwMonitorApp.default readEmpty).2.2 rfl).2

/-- Claim C7: sampling is a total function of the readings — for every
combination of OS query results, including all-empty ones, it returns a
snapshot whose load is either the carried prior value or a freshly computed
mean, whose temperature is either `none` or the reading of a matching
component, and whose disk list mirrors the enumeration. -/
theorem sample_total_and_valid (s : HwMonitorApp) (r : SysReadings) :
    ((snapshot s r).cpu_load_percent = s.cpu_load ∨
      (snapshot s r).cpu_load_percent = some (r.cpus.sum / (r.cpus.length : ℚ))) ∧
    ((snapshot s r).cpu_temperature_celsius = none ∨
      ∃ c ∈ r.components, tempMatch c ∧
        (snapshot s r).cpu_temperature_celsius = some c.temperature) ∧
    (snapshot s r).disks = r.disks.map toDiskInfo := by
  refine ⟨?_, ?_, by simp [snapshot, sample]⟩
  · cases he : r.cpus.isEmpty
    · exact Or.inr (by simp [snapshot, sample, HwMonitorApp.update, he])
    · exact Or.inl (by simp [snapshot, sample, HwMonitorApp.update, he])
  · cases hf : r.components.find? tempMatch with
    | none => exact Or.inl (by simp [snapshot, sample, HwMonitorApp.update, hf])
    | some c =>
      exact Or.inr ⟨c, List.mem_of_find?_eq_some hf, List.find?_some hf,
        by simp [snapshot, sample, HwMonitorApp.update, hf]⟩

/-- Claim C8: a second sampling cycle run immediately from the updated state,
with the OS readings unchanged, produces a snapshot equal to the first one in
every field. -/
theorem sample_idempotent (s : HwMonitorApp) (r : SysReadings) :
    snapshot (HwMonitorApp.update s r) r = snapshot s r := by
  cases he : r.cpus.isEmpty <;>
    simp [snapshot, sample, HwMonitorApp.update, he]

/-- Claim C9: once `cpu_load` holds a value, it holds a value after every
later sequence of cycles, whatever readings they observe. -/
theorem cpu_load_stays_some (s : HwMonitorApp) (rs : List SysReadings)
    (h : s.cpu_load.isSome = true) : (runCycles s rs).cpu_load.isSome = true := by
  induction rs generalizing s with
  | nil => exact h
  | cons r rs ih =>
    have hstep : (HwMonitorApp.update s r).cpu_load.isSome = true := by
      cases he : r.cpus.isEmpty <;> simp [HwMonitorApp.update, he, h]
    exact ih (HwMonitorApp.update s r) hstep

/-- Witness for C9: a cached load survives empty and non-empty cycles. -/
theorem cpu_load_stays_some_witness :
    (runCycles appWithLoad [ readEmpty, readTwoCpus, readEmpty ]).cpu_load.isSome = true :=
  cpu_load_stays_some appWithLoad [ readEmpty, readTwoCpus, readEmpty ] (by decide)

/-- Claim C10: at construction both cached fields are `none`; a first cycle
with an empty CPU list therefore leaves `cpu_load_percent` at `none`, and the
presentation substitutes `0` for it. -/
theorem initial_none_first_cycle (comps : List Component) (ds : List DiskData) :
    HwMonitorApp.default.cpu_load = none ∧
    HwMonitorApp.default.cpu_temp = none ∧
    (snapshot HwMonitorApp.default
        { cpus := [], components := comps, disks := ds }).cpu_load_percent = none ∧
    displayValue (snapshot HwMonitorApp.default
        { cpus := [], components := comps, disks := ds }).cpu_load_percent = 0 := by
  refine ⟨rfl, rfl, ?_, ?_⟩
  · simp [snapshot, sample, HwMonitorApp.update, HwMonitorApp.default]
  · simp [snapshot, sample, HwMonitorApp.update, HwMonitorApp.default, displayValue]
